import Mathlib

/-!
Verification model of the gemini trading bot (risk_validator.py,
trading_state.py, position_monitor.py, config.py).

Modelling conventions:
- Python floats are modelled as exact rationals.
- UTC dates and ISO timestamps that are only compared for equality are
  modelled as strings; timestamps that are compared for order (the circuit
  breaker window) are modelled as rational numbers of hours, so that
  datetime.fromisoformat composed with isoformat is the identity.
- Python dicts keyed by date are modelled as association lists with
  insertion-order update semantics.
- Exchange and file system effects are passed in explicitly: the result of
  a network query is a parameter, a Boolean parameter tells whether a side
  call succeeded (an exception and a bad retCode leave the local fields
  unchanged in the same way), and the state file is a value.
- Python round is round-half-even; round(x, n) scales by 10^n.
-/

/-- Association-list model of a Python dict update `d[k] = v`: replaces the
value in place if the key exists, else appends (insertion order). -/
def dictInsert : List (String × ℚ) → String → ℚ → List (String × ℚ)
  | [], k, v => [(k, v)]
  | p :: rest, k, v => if p.1 = k then (k, v) :: rest else p :: dictInsert rest k v

/-- Association-list model of `d.get(k)` returning an optional value. -/
def dictFind? : List (String × ℚ) → String → Option ℚ
  | [], _ => none
  | p :: rest, k => if p.1 = k then some p.2 else dictFind? rest k

/-- Association-list model of Python `d.get(k, dflt)`. -/
def dictGet (d : List (String × ℚ)) (k : String) (dflt : ℚ) : ℚ :=
  (dictFind? d k).getD dflt

/-- Python `round` on a rational: round to the nearest integer, ties to the
even integer (banker rounding). -/
def roundHalfEven (x : ℚ) : ℤ :=
  let f := ⌊x⌋
  let frac := x - (f : ℚ)
  if frac < 1/2 then f
  else if frac > 1/2 then f + 1
  else if f % 2 = 0 then f else f + 1

/-- Python `round(x, 4)`. -/
def round4 (x : ℚ) : ℚ := (roundHalfEven (x * 10000) : ℚ) / 10000

/-- Python `round(x, 2)`. -/
def round2 (x : ℚ) : ℚ := (roundHalfEven (x * 100) : ℚ) / 100

/-- Python str.upper, character by character. -/
def pyUpper (s : String) : String := ⟨s.data.map Char.toUpper⟩

theorem roundHalfEven_le (x : ℚ) : (roundHalfEven x : ℚ) ≤ x + 1/2 := by
  have hfl := Int.floor_le x
  simp only [roundHalfEven]
  split_ifs with h1 h2 h3
  · linarith
  · push_cast
    linarith
  · linarith
  · push_cast
    linarith

namespace Config

/- Hardcoded safety constants from config.py. -/

def ACCOUNT_SIZE : ℚ := 10000

def FIXED_RISK_AMOUNT : ℚ := 50

def DAILY_LOSS_LIMIT : ℚ := 0.0275

def MAX_DRAWDOWN_TOTAL : ℚ := 0.045

def MIN_TRADE_VALUE_PCT : ℚ := 0.06

def MAX_MARGIN_EXPOSURE : ℚ := 0.15

def MAX_TRADES_PER_DAY : ℤ := 2

def DAILY_PROFIT_CAP : ℚ := 0.03

/-- MIN_RR_RATIO in the source; shortened here. -/
def MIN_RR : ℚ := 1.5

def MIN_CONFIDENCE : ℚ := 7

def CIRCUIT_BREAKER_LOSSES : ℤ := 3

def CIRCUIT_BREAKER_PAUSE_H : ℚ := 24

def PROFIT_DISTRIBUTION_MAX : ℚ := 0.30

def PARTIAL_CLOSE_PCT : ℚ := 0.50

def TRAILING_ATR_MULT : ℚ := 1.0

def MAX_HOLD_HOURS : ℚ := 48

end Config

/-- One element of trade_history as built by TradingState.record_trade. -/
structure TradeRecord where
  timestamp : String
  symbol : String
  side : String
  pnl : ℚ
  exit_type : String
  daily_pnl : ℚ
  total_pnl : ℚ
deriving DecidableEq

/-- One element of open_positions, with the fields used by the execution
pipeline and the position monitor. risk_reward_ratio in the source is
shortened to risk_reward here. -/
structure Position where
  order_id : String
  symbol : String
  side : String
  qty : ℚ
  original_qty : ℚ
  entry_price : ℚ
  stop_loss : ℚ
  take_profit_1 : ℚ
  take_profit_2 : ℚ
  confidence : ℚ
  reasoning : String
  risk_reward : ℚ
  timestamp : String
  partial_filled : Bool
  trailing_activated : Bool
  breakeven_activated : Bool
  atr : ℚ
deriving DecidableEq

/-- TradingState from trading_state.py. circuit_breaker_until is the pause
end as a timestamp (hours); None when no pause is set. -/
structure TradingState where
  daily_pnl : ℚ
  total_pnl : ℚ
  peak_balance : ℚ
  trades_today : ℤ
  wins_today : ℤ
  losses_today : ℤ
  consecutive_losses : ℤ
  winning_streak : ℤ
  circuit_breaker_until : Option ℚ
  last_daily_reset : String
  open_positions : List Position
  trade_history : List TradeRecord
  daily_profit_by_date : List (String × ℚ)
  start_date : String
  trading_days : List String
deriving DecidableEq

/-- TradingState.__init__ with `today` the current UTC date. -/
def TradingState.init (today : String) : TradingState :=
  { daily_pnl := 0
    total_pnl := 0
    peak_balance := Config.ACCOUNT_SIZE
    trades_today := 0
    wins_today := 0
    losses_today := 0
    consecutive_losses := 0
    winning_streak := 0
    circuit_breaker_until := none
    last_daily_reset := today
    open_positions := []
    trade_history := []
    daily_profit_by_date := []
    start_date := today
    trading_days := [] }

/-- TradingState.reset_daily_if_needed, with the current UTC date passed
explicitly. -/
def reset_daily_if_needed (today : String) (s : TradingState) : TradingState :=
  if today ≠ s.last_daily_reset then
    { s with
      daily_profit_by_date :=
        if s.daily_pnl ≠ 0 then
          dictInsert s.daily_profit_by_date s.last_daily_reset s.daily_pnl
        else s.daily_profit_by_date
      trading_days :=
        if s.trades_today > 0 ∧ s.last_daily_reset ∉ s.trading_days then
          s.trading_days ++ [s.last_daily_reset]
        else s.trading_days
      daily_pnl := 0
      trades_today := 0
      wins_today := 0
      losses_today := 0
      last_daily_reset := today }
  else s

/-- TradingState.is_circuit_breaker_triggered. -/
def is_circuit_breaker_triggered (s : TradingState) : Bool :=
  decide (s.consecutive_losses ≥ Config.CIRCUIT_BREAKER_LOSSES)

/-- TradingState.record_trade; `today` is the current UTC date and `ts` the
current ISO timestamp. Returns the is_circuit_breaker_triggered result
together with the new state. -/
def record_trade (today ts : String) (pnl : ℚ) (symbol side exit_type : String)
    (s0 : TradingState) : Bool × TradingState :=
  let s1 := reset_daily_if_needed today s0
  let s2 := { s1 with
    daily_pnl := s1.daily_pnl + pnl
    total_pnl := s1.total_pnl + pnl
    trades_today := s1.trades_today + 1 }
  let s3 := if today ∉ s2.trading_days then
      { s2 with trading_days := s2.trading_days ++ [today] }
    else s2
  let s4 :=
    if pnl > 0 then
      { s3 with consecutive_losses := 0, winning_streak := s3.winning_streak + 1,
                wins_today := s3.wins_today + 1 }
    else if pnl < 0 then
      { s3 with consecutive_losses := s3.consecutive_losses + 1, winning_streak := 0,
                losses_today := s3.losses_today + 1 }
    else s3
  let tr : TradeRecord :=
    { timestamp := ts, symbol := symbol, side := side, pnl := pnl,
      exit_type := exit_type, daily_pnl := s4.daily_pnl, total_pnl := s4.total_pnl }
  let hist := s4.trade_history ++ [tr]
  let hist2 := if hist.length > 100 then hist.drop (hist.length - 100) else hist
  let s5 := { s4 with trade_history := hist2 }
  (is_circuit_breaker_triggered s5, s5)

/-- TradingState.activate_circuit_breaker at current time `now` (hours). -/
def activate_circuit_breaker (now : ℚ) (s : TradingState) : TradingState :=
  { s with circuit_breaker_until := some (now + Config.CIRCUIT_BREAKER_PAUSE_H) }

/-- TradingState.is_circuit_breaker_active at current time `now`: lazily
clears an expired pause. Returns the answer and the new state. -/
def is_circuit_breaker_active (now : ℚ) (s : TradingState) : Bool × TradingState :=
  match s.circuit_breaker_until with
  | none => (false, s)
  | some u =>
    if now < u then (true, s)
    else (false, { s with circuit_breaker_until := none })

/-- TradingState.get_profit_distribution_ratio; shortened name. -/
def get_profit_distribution (today : String) (s : TradingState) : ℚ :=
  if s.total_pnl ≤ 0 then 0
  else
    let today_profit := dictGet s.daily_profit_by_date today 0 + s.daily_pnl
    if today_profit ≤ 0 then 0 else today_profit / s.total_pnl

/-- TradingState.get_trading_days_count. -/
def get_trading_days_count (s : TradingState) : ℕ := s.trading_days.length

/-- The JSON document written by TradingState.save_to_file (one field per
key; every key is always written). -/
structure StateData where
  daily_pnl : ℚ
  total_pnl : ℚ
  peak_balance : ℚ
  trades_today : ℤ
  wins_today : ℤ
  losses_today : ℤ
  consecutive_losses : ℤ
  winning_streak : ℤ
  circuit_breaker_until : Option ℚ
  last_daily_reset : String
  open_positions : List Position
  trade_history : List TradeRecord
  daily_profit_by_date : List (String × ℚ)
  start_date : String
  trading_days : List String
deriving DecidableEq

/-- TradingState.save_to_file: the document atomically written. -/
def save_to_file (s : TradingState) : StateData :=
  { daily_pnl := s.daily_pnl
    total_pnl := s.total_pnl
    peak_balance := s.peak_balance
    trades_today := s.trades_today
    wins_today := s.wins_today
    losses_today := s.losses_today
    consecutive_losses := s.consecutive_losses
    winning_streak := s.winning_streak
    circuit_breaker_until := s.circuit_breaker_until
    last_daily_reset := s.last_daily_reset
    open_positions := s.open_positions
    trade_history := s.trade_history
    daily_profit_by_date := s.daily_profit_by_date
    start_date := s.start_date
    trading_days := s.trading_days }

/-- TradingState.load_from_file: a missing or corrupt file (None) yields a
fresh state; otherwise every field is read back (save_to_file always writes
every key, so the per-key defaults of the source never fire here) and
reset_daily_if_needed runs. -/
def load_from_file (today : String) (file : Option StateData) : TradingState :=
  match file with
  | none => TradingState.init today
  | some d =>
    reset_daily_if_needed today
      { daily_pnl := d.daily_pnl
        total_pnl := d.total_pnl
        peak_balance := d.peak_balance
        trades_today := d.trades_today
        wins_today := d.wins_today
        losses_today := d.losses_today
        consecutive_losses := d.consecutive_losses
        winning_streak := d.winning_streak
        circuit_breaker_until := d.circuit_breaker_until
        last_daily_reset := d.last_daily_reset
        open_positions := d.open_positions
        trade_history := d.trade_history
        daily_profit_by_date := d.daily_profit_by_date
        start_date := d.start_date
        trading_days := d.trading_days }

/-- The Gemini trade signal dict: each field through `.get` with a default,
so absent fields are None here. risk_reward_ratio in the source is
shortened to risk_reward. -/
structure Signal where
  action : Option String
  confidence : Option ℚ
  entry_price : Option ℚ
  stop_loss : Option ℚ
  take_profit_1 : Option ℚ
  take_profit_2 : Option ℚ
  risk_reward : Option ℚ
deriving DecidableEq

/-- One entry of the exchange get_positions result, as read by
RiskValidator._check_max_margin. -/
structure ExchangePos where
  size : ℚ
  avgPrice : ℚ
  leverage : ℚ
deriving DecidableEq

/-- RiskValidator._check_circuit_breaker (the numeric remaining-hours text
of the reason is elided). -/
def check_circuit_breaker (now : ℚ) (s : TradingState) :
    (Bool × String) × TradingState :=
  let r := is_circuit_breaker_active now s
  (if r.1 then (false, "Circuit breaker active") else (true, "OK"), r.2)

/-- RiskValidator._check_daily_loss_limit. -/
def check_daily_loss_limit (s : TradingState) : Bool × String :=
  if s.daily_pnl ≤ -(Config.ACCOUNT_SIZE * Config.DAILY_LOSS_LIMIT) then
    (false, "Daily loss limit hit")
  else (true, "OK")

/-- RiskValidator._check_total_drawdown: raises peak_balance to the current
balance as a side effect before comparing. -/
def check_total_drawdown (balance : ℚ) (s0 : TradingState) :
    (Bool × String) × TradingState :=
  let s := if balance > s0.peak_balance then { s0 with peak_balance := balance } else s0
  if s.peak_balance - balance ≥ Config.ACCOUNT_SIZE * Config.MAX_DRAWDOWN_TOTAL then
    ((false, "Total drawdown limit"), s)
  else ((true, "OK"), s)

/-- RiskValidator._check_daily_trade_count. -/
def check_daily_trade_count (s : TradingState) : Bool × String :=
  if s.trades_today ≥ Config.MAX_TRADES_PER_DAY then
    (false, "Max trades/day reached")
  else (true, "OK")

/-- RiskValidator._check_daily_profit_cap. -/
def check_daily_profit_cap (s : TradingState) : Bool × String :=
  if s.daily_pnl ≥ Config.ACCOUNT_SIZE * Config.DAILY_PROFIT_CAP then
    (false, "Daily profit cap reached")
  else (true, "OK")

/-- RiskValidator._check_confidence. -/
def check_confidence (signal : Signal) : Bool × String :=
  if (signal.confidence).getD 0 < Config.MIN_CONFIDENCE then
    (false, "Confidence too low")
  else (true, "OK")

/-- RiskValidator._check_stop_loss_risk: only the price-validity test has an
effect; the risk-percent locals of the source are computed and discarded. -/
def check_stop_loss_risk (signal : Signal) : Bool × String :=
  let entry := (signal.entry_price).getD 0
  let sl := (signal.stop_loss).getD 0
  if entry ≤ 0 ∨ sl ≤ 0 then (false, "Invalid entry/SL prices")
  else (true, "OK")

/-- RiskValidator._check_tp_placement. -/
def check_tp_placement (signal : Signal) : Bool × String :=
  let act := pyUpper ((signal.action).getD "")
  let entry := (signal.entry_price).getD 0
  let sl := (signal.stop_loss).getD 0
  let tp1 := (signal.take_profit_1).getD 0
  if entry ≤ 0 ∨ sl ≤ 0 ∨ tp1 ≤ 0 then (true, "OK")
  else if act = "BUY" ∧ tp1 ≤ entry then (false, "LONG TP1 is not above entry")
  else if act = "SELL" ∧ tp1 ≥ entry then (false, "SHORT TP1 is not below entry")
  else if act = "BUY" ∧ sl ≥ entry then (false, "LONG SL is not below entry")
  else if act = "SELL" ∧ sl ≤ entry then (false, "SHORT SL is not above entry")
  else if |tp1 - entry| < |entry - sl| * 0.8 then (false, "TP1 too close")
  else (true, "OK")

/-- RiskValidator._check_min_trade_value: only entry validity is enforced;
the minimum value itself is deferred to sizing. -/
def check_min_trade_value (signal : Signal) : Bool × String :=
  if (signal.entry_price).getD 0 ≤ 0 then (false, "Invalid entry price")
  else (true, "OK")

/-- RiskValidator._check_max_margin; `exch` is the get_positions result,
None when the query raised (the source then logs and passes the check). -/
def check_max_margin (exch : Option (List ExchangePos)) (balance : ℚ) :
    Bool × String :=
  let max_margin := balance * Config.MAX_MARGIN_EXPOSURE
  match exch with
  | none => (true, "OK")
  | some ps =>
    let current_margin :=
      (ps.map (fun p =>
        if p.size > 0 ∧ p.leverage > 0 then p.size * p.avgPrice / p.leverage else 0)).sum
    if current_margin ≥ max_margin then (false, "Max margin exposure")
    else (true, "OK")

/-- RiskValidator._check_rr_ratio (shortened name): computes the ratio from
prices when missing or non-positive, writing the rounded value back into
the signal, then compares the unrounded value against the minimum. -/
def check_rr (signal : Signal) : (Bool × String) × Signal :=
  let rr0 := (signal.risk_reward).getD 0
  let entry := (signal.entry_price).getD 0
  let sl := (signal.stop_loss).getD 0
  let tp1 := (signal.take_profit_1).getD 0
  if rr0 ≤ 0 ∧ entry > 0 ∧ sl > 0 ∧ tp1 > 0 then
    let risk := |entry - sl|
    let reward := |tp1 - entry|
    let rr := if risk > 0 then reward / risk else 0
    let signal2 := { signal with risk_reward := some (round2 rr) }
    if rr < Config.MIN_RR then ((false, "R:R too low"), signal2)
    else ((true, "OK"), signal2)
  else
    if rr0 < Config.MIN_RR then ((false, "R:R too low"), signal)
    else ((true, "OK"), signal)

/-- RiskValidator._check_profit_distribution. -/
def check_profit_distribution (today : String) (s : TradingState) : Bool × String :=
  if get_trading_days_count s < 5 then (true, "OK")
  else if s.total_pnl < 500 then (true, "OK")
  else if get_profit_distribution today s > Config.PROFIT_DISTRIBUTION_MAX then
    (false, "Profit distribution limit")
  else (true, "OK")

/-- Tail of RiskValidator.validate_trade from the R:R check on, entered
with the state `s3` fixed by the earlier checks. -/
def validate_stage_rr (today : String) (signal : Signal) (s3 : TradingState) :
    Bool × String × Signal × TradingState :=
  let rr := check_rr signal
  if rr.1.1 = false then (false, rr.1.2, rr.2, s3)
  else if (check_profit_distribution today s3).1 = false then
    (false, (check_profit_distribution today s3).2, rr.2, s3)
  else (true, "All checks passed", rr.2, s3)

/-- Middle of RiskValidator.validate_trade: the signal-dependent checks
from confidence to margin, in source order, then the R:R tail. -/
def validate_stage_sig (today : String) (exch : Option (List ExchangePos))
    (signal : Signal) (balance : ℚ) (s3 : TradingState) :
    Bool × String × Signal × TradingState :=
  if (check_confidence signal).1 = false then
    (false, (check_confidence signal).2, signal, s3)
  else if (check_stop_loss_risk signal).1 = false then
    (false, (check_stop_loss_risk signal).2, signal, s3)
  else if (check_tp_placement signal).1 = false then
    (false, (check_tp_placement signal).2, signal, s3)
  else if (check_min_trade_value signal).1 = false then
    (false, (check_min_trade_value signal).2, signal, s3)
  else if (check_max_margin exch balance).1 = false then
    (false, (check_max_margin exch balance).2, signal, s3)
  else validate_stage_rr today signal s3

/-- RiskValidator.validate_trade: the fixed ordered check sequence with
first-failure short circuit, written in three stages in source order.
Returns (allowed, reason, signal, state) since the circuit-breaker,
drawdown and R:R checks mutate the state or the signal; `today` and `now`
are the current UTC date and time and `exch` the exchange position query
result. -/
def validate_trade (today : String) (now : ℚ) (exch : Option (List ExchangePos))
    (signal : Signal) (balance : ℚ) (s0 : TradingState) :
    Bool × String × Signal × TradingState :=
  let s1 := reset_daily_if_needed today s0
  let cb := check_circuit_breaker now s1
  let s2 := cb.2
  if cb.1.1 = false then (false, cb.1.2, signal, s2)
  else if (check_daily_loss_limit s2).1 = false then
    (false, (check_daily_loss_limit s2).2, signal, s2)
  else
    let dd := check_total_drawdown balance s2
    let s3 := dd.2
    if dd.1.1 = false then (false, dd.1.2, signal, s3)
    else if (check_daily_trade_count s3).1 = false then
      (false, (check_daily_trade_count s3).2, signal, s3)
    else if (check_daily_profit_cap s3).1 = false then
      (false, (check_daily_profit_cap s3).2, signal, s3)
    else validate_stage_sig today exch signal balance s3

/-- RiskValidator.calculate_position_size. `instr` is the lot filter
(qtyStep, minOrderQty) of the instrument query, None when the query raised
or returned no instrument. A zero entry raises ZeroDivisionError at the
unconditional min_value / entry division and a zero qtyStep at the lot
rounding; both are caught by the source and yield 0. The float noise
cleanup float(f-string g of qty) is the identity on this exact model. -/
def calculate_position_size (instr : Option (ℚ × ℚ)) (entry sl : ℚ)
    (confidence : ℚ) (balance : ℚ) : ℚ :=
  match instr with
  | none => 0
  | some (lot_step, min_qty) =>
    let risk_amount := Config.FIXED_RISK_AMOUNT
    let risk_per_unit := |entry - sl|
    if risk_per_unit ≤ 0 then 0
    else if entry = 0 then 0
    else
      let qty := risk_amount / risk_per_unit
      let min_value := balance * Config.MIN_TRADE_VALUE_PCT
      let qty1 := if qty * entry < min_value then min_value / entry else qty
      let max_position_value := balance * Config.MAX_MARGIN_EXPOSURE * 10
      let qty2 := if qty1 * entry > max_position_value then max_position_value / entry else qty1
      let qty3 := if qty2 * risk_per_unit > risk_amount then risk_amount / risk_per_unit else qty2
      if lot_step = 0 then 0
      else max min_qty ((roundHalfEven (qty3 / lot_step) : ℚ) * lot_step)

/-- A reduce-only market order submitted by the position monitor. -/
structure OrderReq where
  side : String
  qty : ℚ
  reduceOnly : Bool
deriving DecidableEq

/-- PositionMonitor._move_sl_to_breakeven; `ok` tells whether the
set_trading_stop call succeeded (on an exception the fields stay put). -/
def move_sl_to_breakeven (ok : Bool) (pos : Position) : Position :=
  if ok then
    { pos with stop_loss := round4 pos.entry_price, breakeven_activated := true }
  else pos

/-- PositionMonitor._check_tp1_partial (shortened name): TP1 crossing test,
lot rounding of the 50 percent close, order submission and on success the
partial-fill bookkeeping plus the breakeven migration. `instr` is the lot
filter (None when the instrument lookup raised or was empty: the close
quantity stays unrounded), `orderOk` whether place_order returned retCode 0
and `slOk` whether the breakeven set_trading_stop succeeded. Returns the
updated position and the submitted order, if any. -/
def check_tp1_partial_close (instr : Option (ℚ × ℚ)) (orderOk slOk : Bool)
    (pos : Position) (current_price : ℚ) : Position × Option OrderReq :=
  let tp1 := pos.take_profit_1
  if tp1 ≤ 0 then (pos, none)
  else if (pos.side = "Buy" ∧ current_price ≥ tp1) ∨
          (pos.side = "Sell" ∧ current_price ≤ tp1) then
    let cq0 := pos.original_qty * Config.PARTIAL_CLOSE_PCT
    let close_qty :=
      match instr with
      | some (lot_step, min_qty) =>
        if lot_step = 0 then cq0
        else max min_qty ((roundHalfEven (cq0 / lot_step) : ℚ) * lot_step)
      | none => cq0
    let close_side := if pos.side = "Buy" then "Sell" else "Buy"
    let ord : OrderReq := { side := close_side, qty := close_qty, reduceOnly := true }
    if orderOk then
      let pos1 := { pos with partial_filled := true, qty := pos.original_qty - close_qty }
      (move_sl_to_breakeven slOk pos1, some ord)
    else (pos, some ord)
  else (pos, none)

/-- PositionMonitor._update_trailing_stop; `ok` tells whether the
set_trading_stop call succeeded. -/
def update_trailing_stop (ok : Bool) (pos : Position) (current_price : ℚ) : Position :=
  if pos.atr ≤ 0 then pos
  else
    let trail_distance := pos.atr * Config.TRAILING_ATR_MULT
    if pos.side = "Buy" then
      let new_sl := current_price - trail_distance
      if new_sl > pos.stop_loss then
        if ok then { pos with stop_loss := new_sl, trailing_activated := true } else pos
      else pos
    else
      let new_sl := current_price + trail_distance
      if new_sl < pos.stop_loss then
        if ok then { pos with stop_loss := new_sl, trailing_activated := true } else pos
      else pos

/-- The live-position portion of PositionMonitor.check_positions for one
tracked position in one cycle: qty reconciliation against the exchange
size, then the TP1 partial management when not yet partial filled, then the
trailing update when partial filled (a partial fill in this very cycle
already enables trailing in the same cycle). The max-hold force close does
not mutate the local record and is elided. -/
def monitor_manage_position (instr : Option (ℚ × ℚ)) (orderOk slOk trailOk : Bool)
    (bybit_size : ℚ) (pos0 : Position) (current_price : ℚ) :
    Position × Option OrderReq :=
  let pos := if bybit_size < pos0.qty ∧ bybit_size > 0 then { pos0 with qty := bybit_size } else pos0
  let r := if pos.partial_filled = false then
      check_tp1_partial_close instr orderOk slOk pos current_price
    else (pos, none)
  let pos2 := r.1
  let pos3 := if pos2.partial_filled = true then
      update_trailing_stop trailOk pos2 current_price
    else pos2
  (pos3, r.2)

theorem dictFind?_insert (d : List (String × ℚ)) (k : String) (v : ℚ) :
    dictFind? (dictInsert d k v) k = some v := by
  induction d with
  | nil => simp [dictInsert, dictFind?]
  | cons p rest ih =>
    by_cases h : p.1 = k
    · simp [dictInsert, dictFind?, h]
    · simp [dictInsert, dictFind?, h, ih]

theorem reset_daily_same (s : TradingState) :
    reset_daily_if_needed s.last_daily_reset s = s := by
  simp [reset_daily_if_needed]

/-- Claim C6: for every TradingState, save_to_file followed by
load_from_file on the written document, on the same UTC date as
last_daily_reset, reproduces an equivalent state: every field of the data
model is equal after the round trip. -/
theorem C6_roundtrip (s : TradingState) :
    load_from_file s.last_daily_reset (some (save_to_file s)) = s := by
  show reset_daily_if_needed s.last_daily_reset _ = s
  simp only [save_to_file]
  exact reset_daily_same s

/-- Claim C5 (amended): reset_daily_if_needed is idempotent and a call on
the date of last_daily_reset changes nothing; on a date change it zeroes
the daily counters and sets the new date, it archives the prior daily_pnl
under the prior date when that PnL is nonzero (a flat day leaves
daily_profit_by_date unchanged), and it puts the prior date into
trading_days when any trade occurred. -/
theorem C5_daily_reset (today : String) (s : TradingState) :
    (today = s.last_daily_reset → reset_daily_if_needed today s = s)
    ∧ reset_daily_if_needed today (reset_daily_if_needed today s)
        = reset_daily_if_needed today s
    ∧ (today ≠ s.last_daily_reset →
        (reset_daily_if_needed today s).daily_pnl = 0
        ∧ (reset_daily_if_needed today s).trades_today = 0
        ∧ (reset_daily_if_needed today s).wins_today = 0
        ∧ (reset_daily_if_needed today s).losses_today = 0
        ∧ (reset_daily_if_needed today s).last_daily_reset = today
        ∧ (s.daily_pnl ≠ 0 →
            dictFind? (reset_daily_if_needed today s).daily_profit_by_date
              s.last_daily_reset = some s.daily_pnl)
        ∧ (s.daily_pnl = 0 →
            (reset_daily_if_needed today s).daily_profit_by_date
              = s.daily_profit_by_date)
        ∧ (s.trades_today > 0 →
            s.last_daily_reset ∈ (reset_daily_if_needed today s).trading_days)) := by
  refine ⟨fun h => by simp [reset_daily_if_needed, h], ?_, ?_⟩
  · by_cases h : today = s.last_daily_reset
    · simp [reset_daily_if_needed, h]
    · simp [reset_daily_if_needed, h]
  · intro h
    refine ⟨by simp [reset_daily_if_needed, h], by simp [reset_daily_if_needed, h],
      by simp [reset_daily_if_needed, h], by simp [reset_daily_if_needed, h],
      by simp [reset_daily_if_needed, h], ?_, ?_, ?_⟩
    · intro hd
      simp [reset_daily_if_needed, h, hd, dictFind?_insert]
    · intro hd
      simp [reset_daily_if_needed, h, hd]
    · intro ht
      by_cases hm : s.last_daily_reset ∈ s.trading_days
      · simp [reset_daily_if_needed, h, hm]
      · simp [reset_daily_if_needed, h, hm, ht]

/-- Concrete boundary state for claim C5: a flat prior day. -/
def c5state : TradingState := TradingState.init "2026-10-11"

/-- Claim C5 (counterexample): crossing a date boundary from a day with
daily_pnl = 0 does not archive the prior daily_pnl into
daily_profit_by_date: no entry at all is created under the prior date, so
the archive clause of the claim fails as stated. -/
theorem C5_counterexample :
    c5state.daily_pnl = 0
    ∧ "2026-10-12" ≠ c5state.last_daily_reset
    ∧ dictFind? (reset_daily_if_needed "2026-10-12" c5state).daily_profit_by_date
        c5state.last_daily_reset ≠ some c5state.daily_pnl := by
  refine ⟨rfl, by simp [c5state, TradingState.init], ?_⟩
  simp [reset_daily_if_needed, c5state, TradingState.init, dictFind?]

theorem reset_daily_consecutive_losses (today : String) (s : TradingState) :
    (reset_daily_if_needed today s).consecutive_losses = s.consecutive_losses := by
  simp only [reset_daily_if_needed]
  split_ifs <;> rfl

/-- Claim C2: a record_trade call that brings consecutive_losses to exactly
3 reports the circuit breaker as triggered; after activate_circuit_breaker
at time t, is_circuit_breaker_active is true strictly before t plus the
pause window and, once the window has elapsed, is false and clears the
timestamp without any manual reset. -/
theorem C2_circuit_breaker (s : TradingState) (today ts sym sd ext : String)
    (pnl t now1 now2 : ℚ) :
    (s.consecutive_losses = 2 → pnl < 0 →
      (record_trade today ts pnl sym sd ext s).1 = true
      ∧ is_circuit_breaker_triggered (record_trade today ts pnl sym sd ext s).2 = true)
    ∧ (now1 < t + Config.CIRCUIT_BREAKER_PAUSE_H →
        (is_circuit_breaker_active now1 (activate_circuit_breaker t s)).1 = true)
    ∧ (t + Config.CIRCUIT_BREAKER_PAUSE_H ≤ now2 →
        (is_circuit_breaker_active now2 (activate_circuit_breaker t s)).1 = false
        ∧ (is_circuit_breaker_active now2
            (activate_circuit_breaker t s)).2.circuit_breaker_until = none) := by
  refine ⟨?_, ?_, ?_⟩
  · intro h2 hneg
    have hng : ¬ pnl > 0 := by linarith
    have hrl := reset_daily_consecutive_losses today s
    simp only [record_trade, is_circuit_breaker_triggered]
    constructor <;>
    · split_ifs <;> simp_all [Config.CIRCUIT_BREAKER_LOSSES]
  · intro hlt
    simp [is_circuit_breaker_active, activate_circuit_breaker, hlt]
  · intro hge
    have : ¬ now2 < t + Config.CIRCUIT_BREAKER_PAUSE_H := by linarith
    simp [is_circuit_breaker_active, activate_circuit_breaker, this]

/-- Concrete state for the claim C2 witness: two prior consecutive losses. -/
def c2state : TradingState :=
  { TradingState.init "2026-10-12" with consecutive_losses := 2 }

/-- Claim C2 (witness): the theorem evaluated on a concrete state with two
consecutive losses, a losing trade, and a pause window from time 0. -/
theorem C2_circuit_breaker_witness :
    ((record_trade "2026-10-12" "t0" (-10) "SOLUSDT" "Buy" "SL" c2state).1 = true
      ∧ is_circuit_breaker_triggered
          (record_trade "2026-10-12" "t0" (-10) "SOLUSDT" "Buy" "SL" c2state).2 = true)
    ∧ (is_circuit_breaker_active 23 (activate_circuit_breaker 0 c2state)).1 = true
    ∧ ((is_circuit_breaker_active 25 (activate_circuit_breaker 0 c2state)).1 = false
        ∧ (is_circuit_breaker_active 25
            (activate_circuit_breaker 0 c2state)).2.circuit_breaker_until = none) :=
  ⟨(C2_circuit_breaker c2state "2026-10-12" "t0" "SOLUSDT" "Buy" "SL" (-10) 0 23 25).1
      rfl (by norm_num),
   (C2_circuit_breaker c2state "2026-10-12" "t0" "SOLUSDT" "Buy" "SL" (-10) 0 23 25).2.1
      (by norm_num [Config.CIRCUIT_BREAKER_PAUSE_H]),
   (C2_circuit_breaker c2state "2026-10-12" "t0" "SOLUSDT" "Buy" "SL" (-10) 0 23 25).2.2
      (by norm_num [Config.CIRCUIT_BREAKER_PAUSE_H])⟩

theorem getLast?_append_drop {α : Type} (l : List α) (a : α) (k : ℕ)
    (hk : k ≤ l.length) : ((l ++ [a]).drop k).getLast? = some a := by
  rw [List.drop_append_of_le_length hk]
  simp

/-- Claim C10 (amended): a record_trade call with zero PnL, made on the
same UTC date as last_daily_reset, increments trades_today, appends the
trade to trade_history (it is the last entry), puts the date into
trading_days, and leaves consecutive_losses, winning_streak, wins_today
and losses_today unchanged — so a scratch trade consumes one of the
MAX_TRADES_PER_DAY daily trade slots. -/
theorem C10_zero_pnl_trade (today ts sym sd ext : String) (s : TradingState)
    (h : today = s.last_daily_reset) :
    (record_trade today ts 0 sym sd ext s).2.trades_today = s.trades_today + 1
    ∧ (record_trade today ts 0 sym sd ext s).2.trade_history.getLast?
        = some { timestamp := ts, symbol := sym, side := sd, pnl := 0,
                 exit_type := ext, daily_pnl := s.daily_pnl,
                 total_pnl := s.total_pnl }
    ∧ today ∈ (record_trade today ts 0 sym sd ext s).2.trading_days
    ∧ (record_trade today ts 0 sym sd ext s).2.consecutive_losses
        = s.consecutive_losses
    ∧ (record_trade today ts 0 sym sd ext s).2.winning_streak = s.winning_streak
    ∧ (record_trade today ts 0 sym sd ext s).2.wins_today = s.wins_today
    ∧ (record_trade today ts 0 sym sd ext s).2.losses_today = s.losses_today := by
  subst h
  have hr := reset_daily_same s
  simp only [record_trade, hr]
  have h0 : ¬ (0:ℚ) > 0 := by norm_num
  have h0l : ¬ (0:ℚ) < 0 := by norm_num
  refine ⟨?_, ?_, ?_, ?_, ?_, ?_, ?_⟩ <;>
    · split_ifs <;>
        simp_all [getLast?_append_drop, List.mem_append]

/-- Concrete boundary state for claim C10: a state carried over from a
prior date with nonzero daily counters. -/
def c10state : TradingState :=
  { TradingState.init "2026-10-11" with wins_today := 1, trades_today := 5 }

set_option maxRecDepth 8000 in
/-- Claim C10 (counterexample): a zero-PnL record_trade call made after a
UTC date change first runs the daily reset, so wins_today does not stay
unchanged and trades_today does not increase by 1, contrary to the claim
as stated for every call. -/
theorem C10_counterexample :
    (record_trade "2026-10-12" "t0" 0 "SOLUSDT" "Buy" "TP" c10state).2.wins_today
      ≠ c10state.wins_today
    ∧ (record_trade "2026-10-12" "t0" 0 "SOLUSDT" "Buy" "TP" c10state).2.trades_today
      ≠ c10state.trades_today + 1 := by
  constructor <;>
    simp [record_trade, reset_daily_if_needed, c10state, TradingState.init,
      is_circuit_breaker_triggered]

/-- Claim C8: the trailing-stop update never loosens the stop: for a
partial-filled long position the stored stop_loss only ever changes to a
strictly higher value, and for a short position only to a strictly lower
value. -/
theorem C8_trailing_monotone (ok : Bool) (pos : Position) (price : ℚ)
    (hpf : pos.partial_filled = true) :
    (pos.side = "Buy" →
      pos.stop_loss ≤ (update_trailing_stop ok pos price).stop_loss
      ∧ ((update_trailing_stop ok pos price).stop_loss ≠ pos.stop_loss →
          pos.stop_loss < (update_trailing_stop ok pos price).stop_loss))
    ∧ (pos.side = "Sell" →
      (update_trailing_stop ok pos price).stop_loss ≤ pos.stop_loss
      ∧ ((update_trailing_stop ok pos price).stop_loss ≠ pos.stop_loss →
          (update_trailing_stop ok pos price).stop_loss < pos.stop_loss)) := by
  simp only [update_trailing_stop]
  split_ifs <;>
    refine ⟨fun hb => ⟨?_, fun hne => ?_⟩, fun hs => ⟨?_, fun hne => ?_⟩⟩ <;>
    simp_all <;> linarith

/-- Claim C10 (witness): the amended theorem evaluated on a fresh state on
its own reset date. -/
theorem C10_zero_pnl_trade_witness :
    (record_trade "2026-10-12" "t1" 0 "SOLUSDT" "Buy" "TP"
        (TradingState.init "2026-10-12")).2.trades_today
      = (TradingState.init "2026-10-12").trades_today + 1
    ∧ (record_trade "2026-10-12" "t1" 0 "SOLUSDT" "Buy" "TP"
        (TradingState.init "2026-10-12")).2.trade_history.getLast?
        = some { timestamp := "t1", symbol := "SOLUSDT", side := "Buy", pnl := 0,
                 exit_type := "TP",
                 daily_pnl := (TradingState.init "2026-10-12").daily_pnl,
                 total_pnl := (TradingState.init "2026-10-12").total_pnl }
    ∧ "2026-10-12" ∈ (record_trade "2026-10-12" "t1" 0 "SOLUSDT" "Buy" "TP"
        (TradingState.init "2026-10-12")).2.trading_days
    ∧ (record_trade "2026-10-12" "t1" 0 "SOLUSDT" "Buy" "TP"
        (TradingState.init "2026-10-12")).2.consecutive_losses
      = (TradingState.init "2026-10-12").consecutive_losses
    ∧ (record_trade "2026-10-12" "t1" 0 "SOLUSDT" "Buy" "TP"
        (TradingState.init "2026-10-12")).2.winning_streak
      = (TradingState.init "2026-10-12").winning_streak
    ∧ (record_trade "2026-10-12" "t1" 0 "SOLUSDT" "Buy" "TP"
        (TradingState.init "2026-10-12")).2.wins_today
      = (TradingState.init "2026-10-12").wins_today
    ∧ (record_trade "2026-10-12" "t1" 0 "SOLUSDT" "Buy" "TP"
        (TradingState.init "2026-10-12")).2.losses_today
      = (TradingState.init "2026-10-12").losses_today :=
  C10_zero_pnl_trade "2026-10-12" "t1" "SOLUSDT" "Buy" "TP"
    (TradingState.init "2026-10-12") rfl

/-- Concrete partial-filled long position for the claim C8 witness. -/
def c8pos : Position :=
  { order_id := "1"
    symbol := "SOLUSDT"
    side := "Buy"
    qty := 1
    original_qty := 2
    entry_price := 100
    stop_loss := 100
    take_profit_1 := 110
    take_profit_2 := 120
    confidence := 8
    reasoning := "r"
    risk_reward := 2
    timestamp := "t"
    partial_filled := true
    trailing_activated := false
    breakeven_activated := true
    atr := 2 }

/-- Claim C8 (witness): the theorem evaluated on a concrete partial-filled
long position. -/
theorem C8_trailing_monotone_witness :
    (c8pos.side = "Buy" →
      c8pos.stop_loss ≤ (update_trailing_stop true c8pos 120).stop_loss
      ∧ ((update_trailing_stop true c8pos 120).stop_loss ≠ c8pos.stop_loss →
          c8pos.stop_loss < (update_trailing_stop true c8pos 120).stop_loss))
    ∧ (c8pos.side = "Sell" →
      (update_trailing_stop true c8pos 120).stop_loss ≤ c8pos.stop_loss
      ∧ ((update_trailing_stop true c8pos 120).stop_loss ≠ c8pos.stop_loss →
          (update_trailing_stop true c8pos 120).stop_loss < c8pos.stop_loss)) :=
  C8_trailing_monotone true c8pos 120 rfl

/-- Claim C7 (amended): when the price of a long position crosses a
positive take_profit_1 while partial_filled is false and the reduce-only
order succeeds, the very same _check_tp1_partial call submits a reduce-only
sell of PARTIAL_CLOSE_PCT of original_qty (lot rounded with the
minimum-quantity floor), marks partial_filled, shrinks qty by the closed
amount, and immediately migrates the stop loss to the entry price (rounded
to 4 decimals) — the migration happens in the triggering pass itself, not
in a subsequent pass, and later passes apply ATR trailing instead. -/
theorem C7_tp1_partial_breakeven (lot_step min_qty : ℚ) (pos : Position)
    (price : ℚ) (hside : pos.side = "Buy") (_hpf : pos.partial_filled = false)
    (htp : 0 < pos.take_profit_1) (hcross : pos.take_profit_1 ≤ price)
    (hls : lot_step ≠ 0) :
    check_tp1_partial_close (some (lot_step, min_qty)) true true pos price
      = ({ pos with
            partial_filled := true
            qty := pos.original_qty -
              max min_qty
                ((roundHalfEven (pos.original_qty * Config.PARTIAL_CLOSE_PCT / lot_step) : ℚ)
                  * lot_step)
            stop_loss := round4 pos.entry_price
            breakeven_activated := true },
         some { side := "Sell"
                qty := max min_qty
                  ((roundHalfEven (pos.original_qty * Config.PARTIAL_CLOSE_PCT / lot_step) : ℚ)
                    * lot_step)
                reduceOnly := true }) := by
  have h1 : ¬ pos.take_profit_1 ≤ 0 := not_le.mpr htp
  simp [check_tp1_partial_close, move_sl_to_breakeven, h1, hside, hls, hcross]

/-- Concrete long position at TP1 for the claim C7 witness. -/
def c7wpos : Position :=
  { order_id := "2"
    symbol := "SOLUSDT"
    side := "Buy"
    qty := 2
    original_qty := 2
    entry_price := 100
    stop_loss := 95
    take_profit_1 := 110
    take_profit_2 := 120
    confidence := 8
    reasoning := "r"
    risk_reward := 2
    timestamp := "t"
    partial_filled := false
    trailing_activated := false
    breakeven_activated := false
    atr := 0 }

/-- Claim C7 (witness): the amended theorem evaluated on a concrete long
position whose TP1 is crossed. -/
theorem C7_tp1_partial_breakeven_witness :
    check_tp1_partial_close (some (1, 1)) true true c7wpos 110
      = ({ c7wpos with
            partial_filled := true
            qty := c7wpos.original_qty -
              max 1 ((roundHalfEven (c7wpos.original_qty * Config.PARTIAL_CLOSE_PCT / 1) : ℚ) * 1)
            stop_loss := round4 c7wpos.entry_price
            breakeven_activated := true },
         some { side := "Sell"
                qty := max 1
                  ((roundHalfEven (c7wpos.original_qty * Config.PARTIAL_CLOSE_PCT / 1) : ℚ) * 1)
                reduceOnly := true }) :=
  C7_tp1_partial_breakeven 1 1 c7wpos 110 rfl rfl
    (by norm_num [c7wpos]) (by norm_num [c7wpos]) one_ne_zero

/-- Concrete long position with a positive ATR for the claim C7
counterexample. -/
def c7cpos : Position := { c7wpos with order_id := "3", atr := 2 }

set_option maxRecDepth 8000 in
/-- Claim C7 (counterexample): for a long position with a positive ATR, the
triggering monitor pass already performs the partial close, and neither it
nor the subsequent pass leaves the stop loss at the entry price: the
same-pass trailing update moves it above entry, so the claim that a
subsequent monitor pass migrates stop_loss to entry_price fails. -/
theorem C7_counterexample :
    (monitor_manage_position (some (1, 1)) true true true 2 c7cpos 110).1.partial_filled = true
    ∧ (monitor_manage_position (some (1, 1)) true true true 1
        (monitor_manage_position (some (1, 1)) true true true 2 c7cpos 110).1 110).1.stop_loss
      ≠ c7cpos.entry_price := by
  constructor <;>
    norm_num [monitor_manage_position, check_tp1_partial_close, move_sl_to_breakeven,
      update_trailing_stop, c7cpos, c7wpos, round4, roundHalfEven,
      Config.PARTIAL_CLOSE_PCT, Config.TRAILING_ATR_MULT]

theorem validate_trade_cases (today : String) (now : ℚ)
    (exch : Option (List ExchangePos)) (signal : Signal) (balance : ℚ)
    (s0 : TradingState) :
    ((validate_trade today now exch signal balance s0).1 = false
      ∧ (validate_trade today now exch signal balance s0).2.2.1 = signal)
    ∨ validate_trade today now exch signal balance s0
        = validate_stage_sig today exch signal balance
            (check_total_drawdown balance
              (check_circuit_breaker now (reset_daily_if_needed today s0)).2).2 := by
  simp only [validate_trade]
  split_ifs <;> first | exact Or.inl ⟨rfl, rfl⟩ | exact Or.inr rfl

theorem validate_stage_sig_false_of_confidence (today : String)
    (exch : Option (List ExchangePos)) (signal : Signal) (balance : ℚ)
    (s3 : TradingState) (h : (check_confidence signal).1 = false) :
    (validate_stage_sig today exch signal balance s3).1 = false := by
  simp only [validate_stage_sig]
  rw [if_pos h]

theorem validate_stage_sig_false_of_prices (today : String)
    (exch : Option (List ExchangePos)) (signal : Signal) (balance : ℚ)
    (s3 : TradingState)
    (h : (check_stop_loss_risk signal).1 = false
      ∨ (check_tp_placement signal).1 = false) :
    (validate_stage_sig today exch signal balance s3).1 = false := by
  simp only [validate_stage_sig]
  by_cases h6 : (check_confidence signal).1 = false
  · rw [if_pos h6]
  · rw [if_neg h6]
    rcases h with hc | hc
    · rw [if_pos hc]
    · by_cases h7 : (check_stop_loss_risk signal).1 = false
      · rw [if_pos h7]
      · rw [if_neg h7, if_pos hc]

/-- Claim C4: a signal whose confidence (defaulting to 0 when absent) is
below MIN_CONFIDENCE is never allowed by validate_trade, for every trading
state, balance, date, time and exchange answer. -/
theorem C4_confidence_reject (today : String) (now : ℚ)
    (exch : Option (List ExchangePos)) (signal : Signal) (balance : ℚ)
    (s : TradingState)
    (h : (signal.confidence).getD 0 < Config.MIN_CONFIDENCE) :
    (validate_trade today now exch signal balance s).1 = false := by
  rcases validate_trade_cases today now exch signal balance s with ⟨hf, -⟩ | he
  · exact hf
  · rw [he]
    exact validate_stage_sig_false_of_confidence _ _ _ _ _
      (by simp [check_confidence, h])

/-- Concrete low-confidence signal for the claim C4 witness. -/
def c4sig : Signal :=
  { action := some "BUY"
    confidence := some 3
    entry_price := some 100
    stop_loss := some 95
    take_profit_1 := some 110
    take_profit_2 := some 120
    risk_reward := some 2 }

/-- Claim C4 (witness): the theorem evaluated on a concrete signal with
confidence 3 against a fresh state. -/
theorem C4_confidence_reject_witness :
    (validate_trade "2026-10-12" 0 (some []) c4sig 10000
      (TradingState.init "2026-10-12")).1 = false :=
  C4_confidence_reject "2026-10-12" 0 (some []) c4sig 10000
    (TradingState.init "2026-10-12") (by norm_num [c4sig, Config.MIN_CONFIDENCE])

theorem pyUpper_BUY : pyUpper "BUY" = "BUY" := by decide

/-- Claim C3 (amended): a BUY signal with a positive take_profit_1 at or
below entry_price is always rejected, and a SELL signal with
take_profit_1 at or above entry_price is always rejected, for every
trading state, balance and exchange answer; a BUY signal whose
take_profit_1 is zero or negative skips the placement check instead (see
the counterexample). -/
theorem C3_tp_placement_reject (today : String) (now : ℚ)
    (exch : Option (List ExchangePos)) (signal : Signal) (balance : ℚ)
    (s : TradingState) :
    (pyUpper ((signal.action).getD "") = "BUY" →
      0 < (signal.take_profit_1).getD 0 →
      (signal.take_profit_1).getD 0 ≤ (signal.entry_price).getD 0 →
      (validate_trade today now exch signal balance s).1 = false)
    ∧ (pyUpper ((signal.action).getD "") = "SELL" →
      (signal.entry_price).getD 0 ≤ (signal.take_profit_1).getD 0 →
      (validate_trade today now exch signal balance s).1 = false) := by
  constructor
  · intro hact htp hle
    rcases validate_trade_cases today now exch signal balance s with ⟨hf, -⟩ | he
    · exact hf
    rw [he]
    apply validate_stage_sig_false_of_prices
    by_cases hsl : (signal.stop_loss).getD 0 ≤ 0
    · left
      simp [check_stop_loss_risk, hsl]
    · right
      have hent : ¬ (signal.entry_price).getD 0 ≤ 0 := by
        intro hc
        exact absurd (le_trans hle hc) (not_le.mpr htp)
      have hguard : ¬ ((signal.entry_price).getD 0 ≤ 0
          ∨ (signal.stop_loss).getD 0 ≤ 0
          ∨ (signal.take_profit_1).getD 0 ≤ 0) := by
        push_neg
        exact ⟨not_le.mp hent, not_le.mp hsl, htp⟩
      simp only [check_tp_placement]
      rw [if_neg hguard, if_pos ⟨hact, hle⟩]
  · intro hact hge
    rcases validate_trade_cases today now exch signal balance s with ⟨hf, -⟩ | he
    · exact hf
    rw [he]
    apply validate_stage_sig_false_of_prices
    by_cases hent : (signal.entry_price).getD 0 ≤ 0
    · left
      simp [check_stop_loss_risk, hent]
    · by_cases hsl : (signal.stop_loss).getD 0 ≤ 0
      · left
        simp [check_stop_loss_risk, hsl]
      · right
        have htp : 0 < (signal.take_profit_1).getD 0 :=
          lt_of_lt_of_le (not_le.mp hent) hge
        have hguard : ¬ ((signal.entry_price).getD 0 ≤ 0
            ∨ (signal.stop_loss).getD 0 ≤ 0
            ∨ (signal.take_profit_1).getD 0 ≤ 0) := by
          push_neg
          exact ⟨not_le.mp hent, not_le.mp hsl, htp⟩
        have hnb : ¬ (pyUpper ((signal.action).getD "") = "BUY"
            ∧ (signal.take_profit_1).getD 0 ≤ (signal.entry_price).getD 0) := by
          rintro ⟨hb, -⟩
          rw [hact] at hb
          exact absurd hb (by decide)
        simp only [check_tp_placement]
        rw [if_neg hguard, if_neg hnb, if_pos ⟨hact, hge⟩]

/-- Concrete BUY signal with zero take_profit_1 for the claim C3
counterexample. -/
def c3sig : Signal :=
  { action := some "BUY"
    confidence := some 9
    entry_price := some 100
    stop_loss := some 90
    take_profit_1 := some 0
    take_profit_2 := some 120
    risk_reward := some 2 }

set_option maxRecDepth 8000 in
/-- Claim C3 (counterexample): a BUY signal whose take_profit_1 is 0 (and
thus at or below its entry price) with a supplied risk_reward_ratio is
allowed by validate_trade against a fresh state, because the placement
check skips non-positive take profits and the supplied ratio bypasses the
recomputation — so the claim as stated fails. -/
theorem C3_counterexample :
    pyUpper ((c3sig.action).getD "") = "BUY"
    ∧ (c3sig.take_profit_1).getD 0 ≤ (c3sig.entry_price).getD 0
    ∧ (validate_trade "2026-10-12" 0 (some []) c3sig 10000
        (TradingState.init "2026-10-12")).1 = true := by
  refine ⟨by decide, by norm_num [c3sig], ?_⟩
  norm_num [validate_trade, validate_stage_sig, validate_stage_rr,
    check_circuit_breaker, is_circuit_breaker_active, check_daily_loss_limit,
    check_total_drawdown, check_daily_trade_count, check_daily_profit_cap,
    check_confidence, check_stop_loss_risk, check_tp_placement,
    check_min_trade_value, check_max_margin, check_rr,
    check_profit_distribution, get_trading_days_count, get_profit_distribution,
    reset_daily_if_needed, c3sig, TradingState.init, pyUpper_BUY,
    Config.MIN_CONFIDENCE, Config.MIN_RR, Config.ACCOUNT_SIZE,
    Config.DAILY_LOSS_LIMIT, Config.MAX_DRAWDOWN_TOTAL,
    Config.MAX_TRADES_PER_DAY, Config.DAILY_PROFIT_CAP,
    Config.MAX_MARGIN_EXPOSURE]

/-- Concrete rejected BUY signal (positive TP1 below entry) for the claim
C3 witness. -/
def c3wsigB : Signal :=
  { action := some "BUY"
    confidence := some 9
    entry_price := some 100
    stop_loss := some 90
    take_profit_1 := some 95
    take_profit_2 := some 120
    risk_reward := some 2 }

/-- Concrete rejected SELL signal (TP1 above entry) for the claim C3
witness. -/
def c3wsigS : Signal :=
  { action := some "SELL"
    confidence := some 9
    entry_price := some 100
    stop_loss := some 110
    take_profit_1 := some 105
    take_profit_2 := some 90
    risk_reward := some 2 }

/-- Claim C3 (witness): the amended theorem evaluated on a concrete BUY
signal with TP1 below entry and a concrete SELL signal with TP1 above
entry. -/
theorem C3_tp_placement_reject_witness :
    (validate_trade "2026-10-12" 0 (some []) c3wsigB 10000
      (TradingState.init "2026-10-12")).1 = false
    ∧ (validate_trade "2026-10-12" 0 (some []) c3wsigS 10000
      (TradingState.init "2026-10-12")).1 = false :=
  ⟨(C3_tp_placement_reject "2026-10-12" 0 (some []) c3wsigB 10000
      (TradingState.init "2026-10-12")).1 (by decide)
      (by norm_num [c3wsigB]) (by norm_num [c3wsigB]),
   (C3_tp_placement_reject "2026-10-12" 0 (some []) c3wsigS 10000
      (TradingState.init "2026-10-12")).2 (by decide)
      (by norm_num [c3wsigS])⟩

theorem buy_ne_sell : ("BUY" = "SELL") = False := by simp

theorem check_rr_frame (signal : Signal) :
    (check_rr signal).2
      = { signal with risk_reward := (check_rr signal).2.risk_reward } := by
  simp only [check_rr]
  split_ifs <;> rfl

theorem validate_stage_rr_signal (today : String) (signal : Signal)
    (s3 : TradingState) :
    (validate_stage_rr today signal s3).2.2.1 = (check_rr signal).2 := by
  simp only [validate_stage_rr]
  split_ifs <;> rfl

theorem validate_stage_sig_signal (today : String)
    (exch : Option (List ExchangePos)) (signal : Signal) (balance : ℚ)
    (s3 : TradingState) :
    (validate_stage_sig today exch signal balance s3).2.2.1 = signal
    ∨ (validate_stage_sig today exch signal balance s3).2.2.1
        = (check_rr signal).2 := by
  simp only [validate_stage_sig]
  split_ifs <;>
    first
      | exact Or.inl rfl
      | exact Or.inr (validate_stage_rr_signal _ _ _)

/-- Claim C9 (amended): validate_trade returns its verdict leaving every
field of the input signal unchanged except possibly risk_reward_ratio,
which the R:R check overwrites with the computed rounded ratio when the
supplied value is missing or non-positive and all prices are present. -/
theorem C9_signal_frame (today : String) (now : ℚ)
    (exch : Option (List ExchangePos)) (signal : Signal) (balance : ℚ)
    (s : TradingState) :
    (validate_trade today now exch signal balance s).2.2.1
      = { signal with risk_reward :=
            (validate_trade today now exch signal balance s).2.2.1.risk_reward } := by
  rcases validate_trade_cases today now exch signal balance s with ⟨-, hs⟩ | he
  · rw [hs]
  · rw [he]
    rcases validate_stage_sig_signal today exch signal balance
        (check_total_drawdown balance
          (check_circuit_breaker now (reset_daily_if_needed today s)).2).2 with hs | hs
    · rw [hs]
    · rw [hs]
      exact check_rr_frame signal

/-- Concrete signal without a supplied risk_reward_ratio for the claim C9
counterexample. -/
def c9sig : Signal :=
  { action := some "BUY"
    confidence := some 9
    entry_price := some 100
    stop_loss := some 90
    take_profit_1 := some 120
    take_profit_2 := some 130
    risk_reward := none }

set_option maxRecDepth 8000 in
/-- Claim C9 (counterexample): validate_trade is not pure with respect to
the proposed trade: on a signal with no supplied risk_reward_ratio and
valid prices, the R:R check writes the computed ratio into the signal, so
the returned signal differs from the input signal. -/
theorem C9_counterexample :
    (validate_trade "2026-10-12" 0 (some []) c9sig 10000
      (TradingState.init "2026-10-12")).2.2.1 ≠ c9sig := by
  norm_num [validate_trade, validate_stage_sig, validate_stage_rr,
    check_circuit_breaker, is_circuit_breaker_active, check_daily_loss_limit,
    check_total_drawdown, check_daily_trade_count, check_daily_profit_cap,
    check_confidence, check_stop_loss_risk, check_tp_placement,
    check_min_trade_value, check_max_margin, check_rr, round2, roundHalfEven,
    check_profit_distribution, get_trading_days_count, get_profit_distribution,
    reset_daily_if_needed, c9sig, TradingState.init, pyUpper_BUY, buy_ne_sell,
    Config.MIN_CONFIDENCE, Config.MIN_RR, Config.ACCOUNT_SIZE,
    Config.DAILY_LOSS_LIMIT, Config.MAX_DRAWDOWN_TOTAL,
    Config.MAX_TRADES_PER_DAY, Config.DAILY_PROFIT_CAP,
    Config.MAX_MARGIN_EXPOSURE]
  decide

theorem final_qty_risk_bound (q rpu lot_step min_qty ra : ℚ)
    (hls : 0 < lot_step) (hrpu : 0 < rpu) (hq : q * rpu ≤ ra)
    (hmin : min_qty * rpu ≤ ra + lot_step * rpu) :
    max min_qty ((roundHalfEven (q / lot_step) : ℚ) * lot_step) * rpu
      ≤ ra + lot_step * rpu := by
  rcases max_cases min_qty ((roundHalfEven (q / lot_step) : ℚ) * lot_step)
    with ⟨hm, -⟩ | ⟨hm, -⟩
  · rw [hm]
    exact hmin
  · rw [hm]
    have h1 : (roundHalfEven (q / lot_step) : ℚ) ≤ q / lot_step + 1/2 :=
      roundHalfEven_le _
    have h2 : (roundHalfEven (q / lot_step) : ℚ) * lot_step
        ≤ (q / lot_step + 1/2) * lot_step :=
      mul_le_mul_of_nonneg_right h1 (le_of_lt hls)
    have h3 : (q / lot_step + 1/2) * lot_step = q + lot_step / 2 := by
      field_simp
      ring
    have h4 : (roundHalfEven (q / lot_step) : ℚ) * lot_step ≤ q + lot_step / 2 := by
      rw [h3] at h2
      exact h2
    have h5 : (roundHalfEven (q / lot_step) : ℚ) * lot_step * rpu
        ≤ (q + lot_step / 2) * rpu :=
      mul_le_mul_of_nonneg_right h4 (le_of_lt hrpu)
    have h6 : 0 ≤ lot_step * rpu := le_of_lt (mul_pos hls hrpu)
    have h7 : (q + lot_step / 2) * rpu = q * rpu + lot_step * rpu / 2 := by
      ring
    linarith

/-- Claim C1 (amended): for a positive lot step and an instrument whose
minimum order quantity itself risks no more than the fixed risk amount
plus one lot step of risk, the quantity returned by
calculate_position_size never carries a dollar risk above
FIXED_RISK_AMOUNT plus one lot-step rounding unit; without the
minimum-order-quantity hypothesis the bound fails (see the
counterexample). -/
theorem C1_risk_bound (lot_step min_qty entry sl conf balance : ℚ)
    (hls : 0 < lot_step)
    (hmin : min_qty * |entry - sl|
      ≤ Config.FIXED_RISK_AMOUNT + lot_step * |entry - sl|) :
    calculate_position_size (some (lot_step, min_qty)) entry sl conf balance
        * |entry - sl|
      ≤ Config.FIXED_RISK_AMOUNT + lot_step * |entry - sl| := by
  have habs : (0:ℚ) ≤ |entry - sl| := abs_nonneg _
  have hzero : (0:ℚ) * |entry - sl|
      ≤ Config.FIXED_RISK_AMOUNT + lot_step * |entry - sl| := by
    rw [zero_mul]
    have : 0 ≤ lot_step * |entry - sl| := mul_nonneg (le_of_lt hls) habs
    simp only [Config.FIXED_RISK_AMOUNT]
    linarith
  simp only [calculate_position_size, Config.FIXED_RISK_AMOUNT] at *
  split_ifs <;>
    first
      | exact hzero
      | (have hrpu : 0 < |entry - sl| := not_le.mp (by assumption)
         apply final_qty_risk_bound _ _ _ _ _ hls hrpu _ hmin
         first
           | exact le_of_eq (div_mul_cancel₀ 50 (ne_of_gt hrpu))
           | exact not_lt.mp (by assumption))

/-- Claim C1 (counterexample): with instrument metadata whose minimum
order quantity is 100 lots (lot step 1), entry 170 and stop 168 give the
fixed-risk quantity 25, but the exchange minimum-quantity floor raises the
returned quantity to 100, whose dollar risk 200 exceeds
FIXED_RISK_AMOUNT plus one lot-step rounding unit — so the claim as
stated over every symbol fails. -/
theorem C1_counterexample :
    calculate_position_size (some (1, 100)) 170 168 7 10000 = 100
    ∧ calculate_position_size (some (1, 100)) 170 168 7 10000 * |(170:ℚ) - 168|
      > Config.FIXED_RISK_AMOUNT + 1 * |(170:ℚ) - 168| := by
  constructor <;>
    norm_num [calculate_position_size, roundHalfEven, Config.FIXED_RISK_AMOUNT,
      Config.MIN_TRADE_VALUE_PCT, Config.MAX_MARGIN_EXPOSURE]

/-- Claim C1 (witness): the amended theorem evaluated on the SOLUSDT-like
lot filter (step 0.1, minimum 0.1) with entry 170 and stop 168. -/
theorem C1_risk_bound_witness :
    calculate_position_size (some (1/10, 1/10)) 170 168 7 10000 * |(170:ℚ) - 168|
      ≤ Config.FIXED_RISK_AMOUNT + (1/10) * |(170:ℚ) - 168| :=
  C1_risk_bound (1/10) (1/10) 170 168 7 10000 (by norm_num)
    (by norm_num [Config.FIXED_RISK_AMOUNT])

/-- Concrete prior-day state with profit and a trade for the claim C5
witness. -/
def c5wstate : TradingState :=
  { TradingState.init "2026-10-11" with daily_pnl := 120, trades_today := 1 }

/-- Claim C5 (witness): the amended theorem evaluated across a concrete
date boundary from a day with nonzero PnL and one trade. -/
theorem C5_daily_reset_witness :
    reset_daily_if_needed "2026-10-12" (reset_daily_if_needed "2026-10-12" c5wstate)
      = reset_daily_if_needed "2026-10-12" c5wstate
    ∧ (reset_daily_if_needed "2026-10-12" c5wstate).daily_pnl = 0
    ∧ (reset_daily_if_needed "2026-10-12" c5wstate).trades_today = 0
    ∧ (reset_daily_if_needed "2026-10-12" c5wstate).last_daily_reset = "2026-10-12"
    ∧ dictFind? (reset_daily_if_needed "2026-10-12" c5wstate).daily_profit_by_date
        c5wstate.last_daily_reset = some c5wstate.daily_pnl
    ∧ c5wstate.last_daily_reset
        ∈ (reset_daily_if_needed "2026-10-12" c5wstate).trading_days := by
  obtain ⟨-, h2, h3⟩ := C5_daily_reset "2026-10-12" c5wstate
  have hne : "2026-10-12" ≠ c5wstate.last_daily_reset := by
    simp [c5wstate, TradingState.init]
  obtain ⟨hz1, hz2, -, -, hz5, harch, -, hdays⟩ := h3 hne
  exact ⟨h2, hz1, hz2, hz5,
    harch (by norm_num [c5wstate, TradingState.init]),
    hdays (by norm_num [c5wstate, TradingState.init])⟩
